import Mathlib

/-!
Verification of the Gravatar FDW scan engine (src/src/lib.rs) as a shallow
embedding: the key normalizer (`hash_email`), predicate extraction, the
per-key fetch loop of `begin_scan` with its 429 / 404 / malformed-body
handling, the result buffer with cursor (`iter_scan`, `re_scan`, `end_scan`)
and the two-tier row projection.  Machine integers are `Nat`/`Int` with
explicit `% 2^w`; the HTTP transport, the JSON parser of the `serde_json`
crate and the clock are external collaborators, modelled as an explicit
environment (`Env`) passed to the scan loop.
-/

namespace Gravatar

/-! ## SHA-256 (the `sha2` crate's digest, as used by `hash_email`) -/

def M32 : Nat := 4294967296

/-- Right rotation of a 32-bit word. -/
def rotr32 (x n : Nat) : Nat := ((x >>> n) ||| (x <<< (32 - n))) % M32

def ch32 (e f g : Nat) : Nat := (e &&& f) ^^^ ((e ^^^ 4294967295) &&& g)

def maj32 (a b c : Nat) : Nat := (a &&& b) ^^^ (a &&& c) ^^^ (b &&& c)

def bigSigma0 (x : Nat) : Nat := rotr32 x 2 ^^^ rotr32 x 13 ^^^ rotr32 x 22

def bigSigma1 (x : Nat) : Nat := rotr32 x 6 ^^^ rotr32 x 11 ^^^ rotr32 x 25

def smallSigma0 (x : Nat) : Nat := rotr32 x 7 ^^^ rotr32 x 18 ^^^ (x >>> 3)

def smallSigma1 (x : Nat) : Nat := rotr32 x 17 ^^^ rotr32 x 19 ^^^ (x >>> 10)

/-- The 64 round constants of FIPS 180-4 section 4.2.2, in decimal. -/
def K256 : List Nat :=
  [1116352408, 1899447441, 3049323471, 3921009573, 961987163,
   1508970993, 2453635748, 2870763221, 3624381080, 310598401,
   607225278, 1426881987, 1925078388, 2162078206, 2614888103,
   3248222580, 3835390401, 4022224774, 264347078, 604807628,
   770255983, 1249150122, 1555081692, 1996064986, 2554220882,
   2821834349, 2952996808, 3210313671, 3336571891, 3584528711,
   113926993, 338241895, 666307205, 773529912, 1294757372,
   1396182291, 1695183700, 1986661051, 2177026350, 2456956037,
   2730485921, 2820302411, 3259730800, 3345764771, 3516065817,
   3600352804, 4094571909, 275423344, 430227734, 506948616,
   659060556, 883997877, 958139571, 1322822218, 1537002063,
   1747873779, 1955562222, 2024104815, 2227730452, 2361852424,
   2428436474, 2756734187, 3204031479, 3329325298]

structure Hash8 where
  a : Nat
  b : Nat
  c : Nat
  d : Nat
  e : Nat
  f : Nat
  g : Nat
  h : Nat

/-- The initial hash value of FIPS 180-4 section 5.3.3, in decimal. -/
def initHash : Hash8 :=
  ⟨1779033703, 3144134277, 1013904242, 2773480762,
   1359893119, 2600822924, 528734635, 1541459225⟩

def sha256Round (st : Hash8) (kw : Nat × Nat) : Hash8 :=
  let t1 := (st.h + bigSigma1 st.e + ch32 st.e st.f st.g + kw.1 + kw.2) % M32
  let t2 := (bigSigma0 st.a + maj32 st.a st.b st.c) % M32
  { a := (t1 + t2) % M32, b := st.a, c := st.b, d := st.c,
    e := (st.d + t1) % M32, f := st.e, g := st.f, h := st.g }

/-- Big-endian 32-bit words from bytes (4 bytes per word). -/
def bytesToWords : List Nat → List Nat
  | b0 :: b1 :: b2 :: b3 :: rest =>
      ((b0 <<< 24) ||| (b1 <<< 16) ||| (b2 <<< 8) ||| b3) :: bytesToWords rest
  | _ => []

/-- Extend the 16 block words to the 64-entry message schedule. -/
def msgSchedule (w16 : List Nat) : List Nat :=
  (List.range 48).foldl
    (fun w _ =>
      let n := w.length
      w ++ [(smallSigma1 (w.getD (n - 2) 0) + w.getD (n - 7) 0 +
             smallSigma0 (w.getD (n - 15) 0) + w.getD (n - 16) 0) % M32])
    w16

def compressBlock (h0 : Hash8) (block : List Nat) : Hash8 :=
  let w := msgSchedule (bytesToWords block)
  let st := (K256.zip w).foldl sha256Round h0
  { a := (h0.a + st.a) % M32, b := (h0.b + st.b) % M32, c := (h0.c + st.c) % M32,
    d := (h0.d + st.d) % M32, e := (h0.e + st.e) % M32, f := (h0.f + st.f) % M32,
    g := (h0.g + st.g) % M32, h := (h0.h + st.h) % M32 }

/-- Big-endian 8-byte encoding of the 64-bit message bit length. -/
def lenBytes64 (n : Nat) : List Nat :=
  [(n >>> 56) % 256, (n >>> 48) % 256, (n >>> 40) % 256, (n >>> 32) % 256,
   (n >>> 24) % 256, (n >>> 16) % 256, (n >>> 8) % 256, n % 256]

/-- SHA-256 padding: 0x80, zeros to 56 mod 64, then the bit length. -/
def padMessage (msg : List Nat) : List Nat :=
  msg ++ [0x80] ++ List.replicate ((120 - ((msg.length + 1) % 64)) % 64) 0 ++
    lenBytes64 (msg.length * 8)

def toBlocksAux : Nat → List Nat → List (List Nat)
  | 0, _ => []
  | _, [] => []
  | fuel + 1, x :: rest => ((x :: rest).take 64) :: toBlocksAux fuel ((x :: rest).drop 64)

/-- Split into 64-byte blocks (the fuel, one unit per block, never runs out:
every step consumes at least one byte). -/
def toBlocks (l : List Nat) : List (List Nat) := toBlocksAux l.length l

def wordBytes (w : Nat) : List Nat :=
  [(w >>> 24) % 256, (w >>> 16) % 256, (w >>> 8) % 256, w % 256]

def hashBytes (h : Hash8) : List Nat :=
  wordBytes h.a ++ wordBytes h.b ++ wordBytes h.c ++ wordBytes h.d ++
  wordBytes h.e ++ wordBytes h.f ++ wordBytes h.g ++ wordBytes h.h

/-- SHA-256 digest (32 bytes) of a byte sequence. -/
def sha256 (msg : List Nat) : List Nat :=
  hashBytes ((toBlocks (padMessage msg)).foldl compressBlock initHash)

/-! ## Hex rendering (Rust's `format!` with the lowercase hex specifier) -/

def hexDigitChar (n : Nat) : Char :=
  if n < 10 then Char.ofNat (48 + n) else Char.ofNat (87 + n)

def byteToHex (b : Nat) : List Char := [hexDigitChar ((b / 16) % 16), hexDigitChar (b % 16)]

def bytesToHex (bs : List Nat) : String := String.mk ((bs.map byteToHex).flatten)

/-! ## UTF-8 encoding of a string (Rust's `str::as_bytes`) -/

def utf8Char (c : Char) : List Nat :=
  let n := c.toNat
  if n < 128 then [n]
  else if n < 2048 then [192 ||| (n >>> 6), 128 ||| (n &&& 63)]
  else if n < 65536 then
    [224 ||| (n >>> 12), 128 ||| ((n >>> 6) &&& 63), 128 ||| (n &&& 63)]
  else
    [240 ||| (n >>> 18), 128 ||| ((n >>> 12) &&& 63), 128 ||| ((n >>> 6) &&& 63),
     128 ||| (n &&& 63)]

def utf8Bytes (s : String) : List Nat := (s.data.map utf8Char).flatten

/-- Rust's `str::trim`: drop whitespace from both ends. -/
def trimString (s : String) : String :=
  String.mk (((s.data.dropWhile Char.isWhitespace).reverse.dropWhile
    Char.isWhitespace).reverse)

/-- Rust's `str::to_lowercase` (ASCII-style case folding suffices for email
addresses, spec section 4.1). -/
def lowerString (s : String) : String := String.mk (s.data.map Char.toLower)

/-- `GravatarFdw::hash_email`: SHA-256 of the trimmed, lower-cased email,
rendered as lowercase hex. -/
def hash_email (email : String) : String :=
  bytesToHex (sha256 (utf8Bytes (lowerString (trimString email))))

/-- `GravatarFdw::build_url`: `format!` of the base URL, a slash and the hash. -/
def build_url (base_url email : String) : String :=
  base_url ++ "/" ++ hash_email email

/-! ## JSON documents (`serde_json::Value`); objects are key/value sequences
with `serde_json`'s map semantics for `get` (first match) and `insert`
(replace the existing entry, else append). -/

inductive JsonValue where
  | null
  | bool (b : Bool)
  | num (n : Int)
  | str (s : String)
  | arr (xs : List JsonValue)
  | obj (kvs : List (String × JsonValue))

/-- `serde_json::Map::insert`: replace the value under the key, else add. -/
def insertKey (kvs : List (String × JsonValue)) (k : String) (v : JsonValue) :
    List (String × JsonValue) :=
  match kvs with
  | [] => [(k, v)]
  | (k', v') :: rest => if k' = k then (k, v) :: rest else (k', v') :: insertKey rest k v

/-- `Value::get` with a string index: a field of an object, else `None`. -/
def JsonValue.get : JsonValue → String → Option JsonValue
  | .obj kvs, k => (kvs.find? (fun kv => kv.1 = k)).map (·.2)
  | _, _ => none

def JsonValue.asStr : JsonValue → Option String
  | .str s => some s
  | _ => none

def JsonValue.asBool : JsonValue → Option Bool
  | .bool b => some b
  | _ => none

/-- `Value::as_i64`: the number when it fits a signed 64-bit integer. -/
def JsonValue.asI64 : JsonValue → Option Int
  | .num n => if -(2 ^ 63) ≤ n ∧ n < 2 ^ 63 then some n else none
  | _ => none

def escapeJsonChar (c : Char) : List Char :=
  if c = '"' then ['\\', '"']
  else if c = '\\' then ['\\', '\\']
  else if c = '\n' then ['\\', 'n']
  else if c = '\r' then ['\\', 'r']
  else if c = '\t' then ['\\', 't']
  else if c.toNat = 8 then ['\\', 'b']
  else if c.toNat = 12 then ['\\', 'f']
  else if c.toNat < 32 then
    ['\\', 'u', '0', '0', hexDigitChar ((c.toNat / 16) % 16), hexDigitChar (c.toNat % 16)]
  else [c]

def renderJsonString (s : String) : String :=
  "\"" ++ String.mk ((s.data.map escapeJsonChar).flatten) ++ "\""

mutual

/-- `Value::to_string`: `serde_json`'s compact rendering. -/
def JsonValue.render : JsonValue → String
  | .null => "null"
  | .bool true => "true"
  | .bool false => "false"
  | .num n => toString n
  | .str s => renderJsonString s
  | .arr xs => "[" ++ renderElems xs ++ "]"
  | .obj kvs => "\x7b" ++ renderMembers kvs ++ "\x7d"

def renderElems : List JsonValue → String
  | [] => ""
  | [x] => JsonValue.render x
  | x :: y :: rest => JsonValue.render x ++ "," ++ renderElems (y :: rest)

def renderMembers : List (String × JsonValue) → String
  | [] => ""
  | [(k, v)] => renderJsonString k ++ ":" ++ JsonValue.render v
  | (k, v) :: m :: rest =>
      renderJsonString k ++ ":" ++ JsonValue.render v ++ "," ++ renderMembers (m :: rest)

end

/-! ## Host types (`supabase::wrappers::types`) -/

inductive TypeOid where
  | bool | string | i32 | i64 | f64 | numeric | date | timestamp | json
deriving DecidableEq

inductive Cell where
  | bool (b : Bool)
  | i32 (n : Int)
  | i64 (n : Int)
  | str (s : String)
  | json (s : String)

inductive Value where
  | cell (c : Cell)
  | array (cs : List Cell)

structure Column where
  name : String
  type_oid : TypeOid

structure Qual where
  field : String
  op : String
  value : Value

/-- Rust's `i64 as i32`: wrap into the signed 32-bit range. -/
def i64AsI32 (n : Int) : Int := (n + 2 ^ 31) % 2 ^ 32 - 2 ^ 31

/-! ## The connector state and its environment.  The transport, the JSON
parser and the clock are external collaborators (spec section 6); `Env`
passes them explicitly where the source calls `http::get`,
`serde_json::from_str` and `time::epoch_secs`. -/

structure FdwState where
  base_url : String
  headers : List (String × String)
  scanned_profiles : List JsonValue
  scan_index : Nat

structure HttpRequest where
  method : String
  url : String
  headers : List (String × String)
  body : String

structure HttpResponse where
  status_code : Nat
  headers : List (String × String)
  body : String

structure Env where
  httpGet : HttpRequest → Except String HttpResponse
  parseJson : String → Except String JsonValue
  epochSecs : Nat

/-- The GET request `begin_scan` builds for one email. -/
def profileRequest (base_url : String) (headers : List (String × String))
    (email : String) : HttpRequest :=
  { method := "GET", url := build_url base_url email, headers := headers, body := "" }

/-! ## Predicate extraction (`begin_scan`'s qual loop) -/

/-- The qual loop of `begin_scan`: push the string operand of every
`email = _` equality predicate, in order. -/
def extractEmails (quals : List Qual) : List String :=
  quals.foldl
    (fun acc q =>
      if q.field = "email" ∧ q.op = "=" then
        match q.value with
        | .cell (.str email) => acc ++ [email]
        | _ => acc
      else acc)
    []

/-! ## The 429 error message -/

/-- `u64::from_str`: an optional plus sign, then decimal digits, value below
`2^64`. -/
def parseU64 (s : String) : Option Nat :=
  let ds := match s.data with
    | '+' :: rest => rest
    | l => l
  if ds = [] then none
  else if ds.all Char.isDigit then
    let n := ds.foldl (fun a c => a * 10 + (c.toNat - 48)) 0
    if n < 2 ^ 64 then some n else none
  else none

def usingApiKey (headers : List (String × String)) : Bool :=
  headers.any (fun kv => lowerString kv.1 = "authorization")

def apiKeyGuidance (headers : List (String × String)) : String :=
  if usingApiKey headers then " Please contact Gravatar to increase your usage limit."
  else " Consider getting an API key at https://gravatar.com/developers/applications for higher rate limits."

/-- The wait-estimate clause appended when `x-ratelimit-reset` is present and
parses as an integer. -/
def resetClause (respHeaders : List (String × String)) (now : Nat) : String :=
  match respHeaders.find? (fun h => lowerString h.1 = "x-ratelimit-reset") with
  | some h =>
    match parseU64 h.2 with
    | some reset =>
        " Wait " ++ toString (if reset > now then reset - now else 0) ++ " seconds for reset."
    | none => ""
  | none => ""

/-- The full message `begin_scan` returns on a 429 response. -/
def rateLimitError (headers : List (String × String)) (resp : HttpResponse)
    (now : Nat) : String :=
  "Rate limit exceeded (429)." ++ resetClause resp.headers now ++ apiKeyGuidance headers

/-! ## The fetch loop of `begin_scan` -/

/-- Re-insert the original email under the fixed field name (the upstream
payload does not echo it back); non-objects pass through unchanged. -/
def insertEmailField (profile : JsonValue) (email : String) : JsonValue :=
  match profile with
  | .obj kvs => .obj (insertKey kvs "email" (.str email))
  | v => v

/-- The per-email loop of `begin_scan`: sequential fetches pushing resolved
records onto the accumulated buffer; the second component is the loop's
early-return error, `none` on success.  On a fatal error the records pushed
so far are kept, as the source's in-place `Vec` pushes are. -/
def fetchEmails (env : Env) (headers : List (String × String)) (base_url : String) :
    List String → List JsonValue → List JsonValue × Option String
  | [], acc => (acc, none)
  | email :: rest, acc =>
    match env.httpGet (profileRequest base_url headers email) with
    | .error e => (acc, some e)
    | .ok resp =>
      if resp.status_code = 429 then
        (acc, some (rateLimitError headers resp env.epochSecs))
      else if resp.status_code = 200 then
        match env.parseJson resp.body with
        | .error e => (acc, some ("Failed to parse JSON response: " ++ e))
        | .ok profile =>
            fetchEmails env headers base_url rest (acc ++ [insertEmailField profile email])
      else
        fetchEmails env headers base_url rest acc

/-! ## The lifecycle operations -/

/-- `OptionsType` lookup via `require_or`: the option's value or the default. -/
def requireOr (opts : List (String × String)) (k dflt : String) : String :=
  match opts.lookup k with
  | some v => v
  | none => dflt

/-- `begin_scan`: clear the buffer and cursor, validate the table option,
extract the email predicates and run the fetch loop.  The returned pair is
the mutated state plus the call's error (`none` = `Ok`). -/
def begin_scan (env : Env) (tableOpts : List (String × String)) (quals : List Qual)
    (s0 : FdwState) : FdwState × Option String :=
  let s := { s0 with scanned_profiles := [], scan_index := 0 }
  let table := requireOr tableOpts "table" "profiles"
  if table ≠ "profiles" then
    (s, some ("Unsupported table '" ++ table ++ "'. Only 'profiles' is supported."))
  else
    let emails := extractEmails quals
    if emails.isEmpty then (s, none)
    else
      let res := fetchEmails env s.headers s.base_url emails []
      ({ s with scanned_profiles := res.1 }, res.2)

/-! ## Row projection (`iter_scan`'s column match) -/

def projectCell (profile : JsonValue) (col : Column) : Option Cell :=
  match col.name with
  | "hash" => ((profile.get "hash").bind JsonValue.asStr).map Cell.str
  | "email" => ((profile.get "email").bind JsonValue.asStr).map Cell.str
  | "display_name" => ((profile.get "display_name").bind JsonValue.asStr).map Cell.str
  | "profile_url" => ((profile.get "profile_url").bind JsonValue.asStr).map Cell.str
  | "avatar_url" => ((profile.get "avatar_url").bind JsonValue.asStr).map Cell.str
  | "avatar_alt_text" => ((profile.get "avatar_alt_text").bind JsonValue.asStr).map Cell.str
  | "location" => ((profile.get "location").bind JsonValue.asStr).map Cell.str
  | "description" => ((profile.get "description").bind JsonValue.asStr).map Cell.str
  | "job_title" => ((profile.get "job_title").bind JsonValue.asStr).map Cell.str
  | "company" => ((profile.get "company").bind JsonValue.asStr).map Cell.str
  | "verified_accounts" => (profile.get "verified_accounts").map (fun v => Cell.json v.render)
  | "pronunciation" => ((profile.get "pronunciation").bind JsonValue.asStr).map Cell.str
  | "pronouns" => ((profile.get "pronouns").bind JsonValue.asStr).map Cell.str
  | "timezone" => ((profile.get "timezone").bind JsonValue.asStr).map Cell.str
  | "languages" => (profile.get "languages").map (fun v => Cell.json v.render)
  | "first_name" => ((profile.get "first_name").bind JsonValue.asStr).map Cell.str
  | "last_name" => ((profile.get "last_name").bind JsonValue.asStr).map Cell.str
  | "is_organization" => ((profile.get "is_organization").bind JsonValue.asBool).map Cell.bool
  | "links" => (profile.get "links").map (fun v => Cell.json v.render)
  | "interests" => (profile.get "interests").map (fun v => Cell.json v.render)
  | "payments" => (profile.get "payments").map (fun v => Cell.json v.render)
  | "contact_info" => (profile.get "contact_info").map (fun v => Cell.json v.render)
  | "number_verified_accounts" =>
      ((profile.get "number_verified_accounts").bind JsonValue.asI64).map Cell.i64
  | "last_profile_edit" => ((profile.get "last_profile_edit").bind JsonValue.asStr).map Cell.str
  | "registration_date" => ((profile.get "registration_date").bind JsonValue.asStr).map Cell.str
  | "json" => some (Cell.json profile.render)
  | _ =>
    match col.type_oid with
    | .bool => ((profile.get col.name).bind JsonValue.asBool).map Cell.bool
    | .string => ((profile.get col.name).bind JsonValue.asStr).map Cell.str
    | .i32 => ((profile.get col.name).bind JsonValue.asI64).map (fun i => Cell.i32 (i64AsI32 i))
    | .i64 => ((profile.get col.name).bind JsonValue.asI64).map Cell.i64
    | .json => (profile.get col.name).map (fun v => Cell.json v.render)
    | _ => none

/-- `iter_scan`: end-of-scan (`none`) at the buffer's end, else the row of
projected cells for the record at the cursor, advancing the cursor. -/
def iter_scan (cols : List Column) (s : FdwState) :
    Option (List (Option Cell)) × FdwState :=
  if s.scan_index ≥ s.scanned_profiles.length then (none, s)
  else
    (some (cols.map (projectCell (s.scanned_profiles.getD s.scan_index JsonValue.null))),
     { s with scan_index := s.scan_index + 1 })

/-- The state part of one `iter_scan` call. -/
def iterState (cols : List Column) (s : FdwState) : FdwState := (iter_scan cols s).2

/-- `re_scan`: cursor to zero, records retained; always `Ok`. -/
def re_scan (s : FdwState) : FdwState := { s with scan_index := 0 }

/-- `end_scan`: records cleared, cursor to zero; always `Ok`. -/
def end_scan (s : FdwState) : FdwState := { s with scanned_profiles := [], scan_index := 0 }

/-! ## Spec-side definitions, for the refinement statements.  These follow
the spec's words (section 4.2's qualifying predicate, section 4.5's named
field table) and are compared with the source-derived definitions above. -/

/-- Spec section 4.2: the string operand of a qualifying predicate (field is
the lookup field, operator is equality), `none` otherwise. -/
def qualEmailOperand (q : Qual) : Option String :=
  if q.field = "email" ∧ q.op = "=" then
    match q.value with
    | .cell (.str email) => some email
    | _ => none
  else none

/-- Spec section 4.5: a named field's declared shape. -/
inductive FieldShape where
  | strF
  | boolF
  | i64F
  | jsonF
  | docF
deriving DecidableEq

/-- Spec section 4.5: the connector's named-field allow-list with each
field's declared shape. -/
def namedFieldShape : String → Option FieldShape
  | "hash" => some .strF
  | "email" => some .strF
  | "display_name" => some .strF
  | "profile_url" => some .strF
  | "avatar_url" => some .strF
  | "avatar_alt_text" => some .strF
  | "location" => some .strF
  | "description" => some .strF
  | "job_title" => some .strF
  | "company" => some .strF
  | "verified_accounts" => some .jsonF
  | "pronunciation" => some .strF
  | "pronouns" => some .strF
  | "timezone" => some .strF
  | "languages" => some .jsonF
  | "first_name" => some .strF
  | "last_name" => some .strF
  | "is_organization" => some .boolF
  | "links" => some .jsonF
  | "interests" => some .jsonF
  | "payments" => some .jsonF
  | "contact_info" => some .jsonF
  | "number_verified_accounts" => some .i64F
  | "last_profile_edit" => some .strF
  | "registration_date" => some .strF
  | "json" => some .docF
  | _ => none

/-- Extraction of a cell by a named field's declared shape. -/
def extractShape (profile : JsonValue) (name : String) : FieldShape → Option Cell
  | .strF => ((profile.get name).bind JsonValue.asStr).map Cell.str
  | .boolF => ((profile.get name).bind JsonValue.asBool).map Cell.bool
  | .i64F => ((profile.get name).bind JsonValue.asI64).map Cell.i64
  | .jsonF => (profile.get name).map (fun v => Cell.json v.render)
  | .docF => some (Cell.json profile.render)

/-- The unknown-column fallback: extraction directed by the column's
host-declared type; any other declared type yields the no-value marker. -/
def fallbackByType (profile : JsonValue) (name : String) : TypeOid → Option Cell
  | .bool => ((profile.get name).bind JsonValue.asBool).map Cell.bool
  | .string => ((profile.get name).bind JsonValue.asStr).map Cell.str
  | .i32 => ((profile.get name).bind JsonValue.asI64).map (fun i => Cell.i32 (i64AsI32 i))
  | .i64 => ((profile.get name).bind JsonValue.asI64).map Cell.i64
  | .json => (profile.get name).map (fun v => Cell.json v.render)
  | _ => none

/-- Spec section 4.5's two-tier resolution, stated as a table lookup. -/
def projectSpec (profile : JsonValue) (col : Column) : Option Cell :=
  match namedFieldShape col.name with
  | some sh => extractShape profile col.name sh
  | none => fallbackByType profile col.name col.type_oid

/-- A key whose fetch does not abort the scan: the transport succeeds, the
status is not 429, and a 200 body parses. -/
def keyNonFatal (env : Env) (headers : List (String × String)) (base_url : String)
    (email : String) : Prop :=
  ∃ r, env.httpGet (profileRequest base_url headers email) = Except.ok r ∧
    r.status_code ≠ 429 ∧
    (r.status_code = 200 → ∃ p, env.parseJson r.body = Except.ok p)

/-! ## Concrete environments and states, for witnesses and scenario checks -/

/-- An environment whose every fetch yields 200 with a body parsing to the
object with one field `hash`. -/
def envOk : Env :=
  { httpGet := fun _ => Except.ok { status_code := 200, headers := [], body := "" },
    parseJson := fun _ => Except.ok (JsonValue.obj [("hash", JsonValue.str "h")]),
    epochSecs := 100 }

/-- An environment whose every fetch yields 404. -/
def env404 : Env :=
  { httpGet := fun _ => Except.ok { status_code := 404, headers := [], body := "" },
    parseJson := fun _ => Except.error "unreachable",
    epochSecs := 100 }

/-- An environment whose every fetch yields 429 with a reset header. -/
def env429 : Env :=
  { httpGet := fun _ =>
      Except.ok { status_code := 429, headers := [("X-RateLimit-Reset", "130")], body := "" },
    parseJson := fun _ => Except.error "unreachable",
    epochSecs := 100 }

/-- An environment whose every fetch yields 200 with an unparseable body. -/
def envBadBody : Env :=
  { httpGet := fun _ => Except.ok { status_code := 200, headers := [], body := "not json" },
    parseJson := fun _ => Except.error "expected value at line 1 column 1",
    epochSecs := 100 }

/-- A fresh connector state. -/
def stateW : FdwState := { base_url := "u", headers := [], scanned_profiles := [], scan_index := 0 }

/-- A state left by a previous scan: two records, cursor past the end. -/
def statePrior : FdwState :=
  { base_url := "u", headers := [], scan_index := 2,
    scanned_profiles := [JsonValue.obj [("hash", JsonValue.str "a")],
                         JsonValue.obj [("hash", JsonValue.str "b")]] }

/-- An email-equality qual on a string literal. -/
def qualEmail (e : String) : Qual := { field := "email", op := "=", value := .cell (.str e) }

/-! ## Lemmas: the key normalizer -/

theorem hashBytes_length (h : Hash8) : (hashBytes h).length = 32 := by
  simp [hashBytes, wordBytes]

theorem sha256_length (m : List Nat) : (sha256 m).length = 32 := by
  unfold sha256
  exact hashBytes_length _

theorem hexFlatten_length (bs : List Nat) :
    ((bs.map byteToHex).flatten).length = 2 * bs.length := by
  induction bs with
  | nil => simp
  | cons b rest ih => simp [byteToHex, ih]; ring

theorem hexDigitChar_range (n : Nat) (h : n < 16) :
    ('0' ≤ hexDigitChar n ∧ hexDigitChar n ≤ '9') ∨
      ('a' ≤ hexDigitChar n ∧ hexDigitChar n ≤ 'f') := by
  revert n
  decide

/-- Known-answer check of the digest: the empty message. -/
theorem sha256_kat_empty :
    hash_email "" = "e3b0c44298fc1c149afbf4c8996fb92427ae41e4649b934ca495991b7852b855" := by
  decide

/-- Known-answer check of the digest with normalization: `"abc"` with case and
surrounding whitespace. -/
theorem sha256_kat_abc :
    hash_email " ABc " = "ba7816bf8f01cfea414140de5dae2223b00361a396177a9cb410ff61f20015ad" := by
  decide

/-- C7: `hash_email` is pure and deterministic: inputs equal after trimming
and lower-casing hash identically; every result is the SHA-256 digest of the
UTF-8 bytes of the trimmed, lower-cased input rendered as 64 lowercase hex
characters, for every input string with no error path. -/
theorem c7_hash_email_normalizer_format :
    (∀ s1 s2 : String,
        lowerString (trimString s1) = lowerString (trimString s2) →
          hash_email s1 = hash_email s2)
    ∧ (∀ s : String, hash_email s = bytesToHex (sha256 (utf8Bytes (lowerString (trimString s)))))
    ∧ (∀ s : String, (hash_email s).length = 64)
    ∧ (∀ s : String, ∀ c ∈ (hash_email s).data,
        ('0' ≤ c ∧ c ≤ '9') ∨ ('a' ≤ c ∧ c ≤ 'f')) := by
  refine ⟨fun s1 s2 h => ?_, fun s => rfl, fun s => ?_, fun s c hc => ?_⟩
  · unfold hash_email
    rw [h]
  · show ((sha256 (utf8Bytes (lowerString (trimString s)))).map byteToHex).flatten.length = 64
    rw [hexFlatten_length, sha256_length]
  · have hc' :
        c ∈ ((sha256 (utf8Bytes (lowerString (trimString s)))).map byteToHex).flatten := hc
    rw [List.mem_flatten] at hc'
    obtain ⟨l, hl, hcl⟩ := hc'
    rw [List.mem_map] at hl
    obtain ⟨b, _, rfl⟩ := hl
    simp only [byteToHex, List.mem_cons, List.not_mem_nil, or_false] at hcl
    rcases hcl with rfl | rfl
    · exact hexDigitChar_range _ (Nat.mod_lt _ (by norm_num))
    · exact hexDigitChar_range _ (Nat.mod_lt _ (by norm_num))

/-! ## Lemmas: predicate extraction -/

theorem extractEmails_eq_filterMap (quals : List Qual) :
    extractEmails quals = quals.filterMap qualEmailOperand := by
  unfold extractEmails
  suffices h : ∀ (l : List Qual) (acc : List String),
      l.foldl
        (fun acc q =>
          if q.field = "email" ∧ q.op = "=" then
            match q.value with
            | .cell (.str email) => acc ++ [email]
            | _ => acc
          else acc)
        acc = acc ++ l.filterMap qualEmailOperand by
    simpa using h quals []
  intro l
  induction l with
  | nil => intro acc; simp
  | cons q rest ih =>
    intro acc
    simp only [List.foldl_cons, List.filterMap_cons, qualEmailOperand]
    by_cases h : q.field = "email" ∧ q.op = "="
    · rw [if_pos h, if_pos h]
      cases hv : q.value with
      | cell c => cases c <;> simp [ih]
      | array cs => simp [ih]
    · rw [if_neg h, if_neg h, ih]

/-- C6: exactly the predicates with field `email` and operator `=` contribute
their string operand, in encounter order with duplicates preserved; the
spec's two examples. -/
theorem c6_predicate_extraction_order :
    (∀ quals : List Qual, extractEmails quals = quals.filterMap qualEmailOperand)
    ∧ extractEmails
        [⟨"email", "=", .cell (.str "a")⟩, ⟨"name", "=", .cell (.str "x")⟩,
         ⟨"email", "=", .cell (.str "b")⟩] = ["a", "b"]
    ∧ extractEmails [⟨"email", "!=", .cell (.str "a")⟩] = []
    ∧ extractEmails [qualEmail "a", qualEmail "a"] = ["a", "a"] := by
  exact ⟨extractEmails_eq_filterMap, rfl, rfl, rfl⟩

/-- C10: an `email =` predicate whose operand is not a string cell contributes
no lookup key: extraction, and the whole of `begin_scan`, are as if the
predicate were absent. -/
theorem c10_nonstring_operand_dropped (pre post : List Qual) (q : Qual)
    (hf : q.field = "email") (hop : q.op = "=")
    (hv : ∀ s, q.value ≠ Value.cell (Cell.str s)) :
    extractEmails (pre ++ q :: post) = extractEmails (pre ++ post)
    ∧ ∀ env opts s0,
        begin_scan env opts (pre ++ q :: post) s0 = begin_scan env opts (pre ++ post) s0 := by
  have hq : qualEmailOperand q = none := by
    unfold qualEmailOperand
    rw [if_pos ⟨hf, hop⟩]
    cases hval : q.value with
    | cell c =>
      cases c with
      | str s => exact absurd hval (hv s)
      | bool b => rfl
      | i32 n => rfl
      | i64 n => rfl
      | json s => rfl
    | array cs => rfl
  have h1 : extractEmails (pre ++ q :: post) = extractEmails (pre ++ post) := by
    rw [extractEmails_eq_filterMap, extractEmails_eq_filterMap,
      List.filterMap_append, List.filterMap_append, List.filterMap_cons, hq]
  exact ⟨h1, fun env opts s0 => by simp only [begin_scan, h1]⟩

/-- C10 at a concrete input: a boolean-valued `email =` predicate between two
string-valued ones drops out of extraction and of `begin_scan`. -/
theorem c10_witness :
    extractEmails
        [qualEmail "a", ⟨"email", "=", .cell (.bool true)⟩, qualEmail "b"]
      = extractEmails [qualEmail "a", qualEmail "b"]
    ∧ ∀ env opts s0,
        begin_scan env opts [qualEmail "a", ⟨"email", "=", .cell (.bool true)⟩, qualEmail "b"] s0
          = begin_scan env opts [qualEmail "a", qualEmail "b"] s0 :=
  c10_nonstring_operand_dropped [qualEmail "a"] [qualEmail "b"]
    ⟨"email", "=", .cell (.bool true)⟩ rfl rfl
    (fun _ h => Value.noConfusion h (fun hc => Cell.noConfusion hc))

/-! ## Lemmas: the fetch loop -/

theorem fetchEmails_429 (env : Env) (headers : List (String × String)) (base_url : String)
    (email : String) (rest : List String) (acc : List JsonValue) (resp : HttpResponse)
    (hget : env.httpGet (profileRequest base_url headers email) = Except.ok resp)
    (h429 : resp.status_code = 429) :
    fetchEmails env headers base_url (email :: rest) acc
      = (acc, some (rateLimitError headers resp env.epochSecs)) := by
  unfold fetchEmails
  rw [hget]
  simp [h429]

theorem fetchEmails_200 (env : Env) (headers : List (String × String)) (base_url : String)
    (email : String) (rest : List String) (acc : List JsonValue) (resp : HttpResponse)
    (profile : JsonValue)
    (hget : env.httpGet (profileRequest base_url headers email) = Except.ok resp)
    (h200 : resp.status_code = 200)
    (hparse : env.parseJson resp.body = Except.ok profile) :
    fetchEmails env headers base_url (email :: rest) acc
      = fetchEmails env headers base_url rest (acc ++ [insertEmailField profile email]) := by
  conv_lhs => rw [fetchEmails]
  rw [hget]
  simp [h200, hparse]

theorem fetchEmails_skip (env : Env) (headers : List (String × String)) (base_url : String)
    (email : String) (rest : List String) (acc : List JsonValue) (resp : HttpResponse)
    (hget : env.httpGet (profileRequest base_url headers email) = Except.ok resp)
    (h429 : resp.status_code ≠ 429) (h200 : resp.status_code ≠ 200) :
    fetchEmails env headers base_url (email :: rest) acc
      = fetchEmails env headers base_url rest acc := by
  conv_lhs => rw [fetchEmails]
  rw [hget]
  simp [h429, h200]

theorem fetchEmails_parse_fail (env : Env) (headers : List (String × String))
    (base_url : String) (email : String) (rest : List String) (acc : List JsonValue)
    (resp : HttpResponse) (e : String)
    (hget : env.httpGet (profileRequest base_url headers email) = Except.ok resp)
    (h200 : resp.status_code = 200)
    (hparse : env.parseJson resp.body = Except.error e) :
    fetchEmails env headers base_url (email :: rest) acc
      = (acc, some ("Failed to parse JSON response: " ++ e)) := by
  unfold fetchEmails
  rw [hget]
  simp [h200, hparse]

/-- A prefix of non-fatal keys only grows the accumulated buffer: the loop
reaches the suffix with some accumulator. -/
theorem fetchEmails_prefix (env : Env) (headers : List (String × String))
    (base_url : String) (pre : List String)
    (hpre : ∀ e ∈ pre, keyNonFatal env headers base_url e)
    (tail : List String) (acc : List JsonValue) :
    ∃ acc2, fetchEmails env headers base_url (pre ++ tail) acc
      = fetchEmails env headers base_url tail acc2 := by
  induction pre generalizing acc with
  | nil => exact ⟨acc, rfl⟩
  | cons e pre ih =>
    obtain ⟨r, hget, h429, h200p⟩ := hpre e (List.mem_cons_self e pre)
    have hpre' : ∀ x ∈ pre, keyNonFatal env headers base_url x :=
      fun x hx => hpre x (List.mem_cons_of_mem e hx)
    by_cases h2 : r.status_code = 200
    · obtain ⟨p, hp⟩ := h200p h2
      rw [List.cons_append,
        fetchEmails_200 env headers base_url e (pre ++ tail) acc r p hget h2 hp]
      exact ih hpre' _
    · rw [List.cons_append,
        fetchEmails_skip env headers base_url e (pre ++ tail) acc r hget h429 h2]
      exact ih hpre' acc

/-- C2: a 429 on any key aborts the whole scan — the loop stops at that key
(the result does not depend on the remaining keys), `begin_scan` surfaces the
message, and the message carries the `max(0, reset − now)` wait estimate when
`x-ratelimit-reset` parses, plus API-key guidance that differs with and
without a configured authorization header. -/
theorem c2_rate_limit_abort :
    (∀ env headers base_url email rest acc resp,
        env.httpGet (profileRequest base_url headers email) = Except.ok resp →
        resp.status_code = 429 →
          fetchEmails env headers base_url (email :: rest) acc
            = (acc, some (rateLimitError headers resp env.epochSecs)))
    ∧ (∀ env headers base_url pre email rest acc resp,
        (∀ e ∈ pre, keyNonFatal env headers base_url e) →
        env.httpGet (profileRequest base_url headers email) = Except.ok resp →
        resp.status_code = 429 →
          (fetchEmails env headers base_url (pre ++ email :: rest) acc).2
            = some (rateLimitError headers resp env.epochSecs))
    ∧ (∀ env opts quals s0 email rest resp,
        requireOr opts "table" "profiles" = "profiles" →
        extractEmails quals = email :: rest →
        env.httpGet (profileRequest s0.base_url s0.headers email) = Except.ok resp →
        resp.status_code = 429 →
          (begin_scan env opts quals s0).2
            = some (rateLimitError s0.headers resp env.epochSecs))
    ∧ (∀ headers resp now hv reset,
        resp.headers.find? (fun h => lowerString h.1 = "x-ratelimit-reset") = some hv →
        parseU64 hv.2 = some reset →
          rateLimitError headers resp now
            = "Rate limit exceeded (429)." ++
                (" Wait " ++ toString (reset - now) ++ " seconds for reset.") ++
                apiKeyGuidance headers
          ∧ ((reset - now : Nat) : Int) = max 0 ((reset : Int) - (now : Int)))
    ∧ (∀ h1 h2, usingApiKey h1 = true → usingApiKey h2 = false →
        apiKeyGuidance h1 ≠ apiKeyGuidance h2) := by
  refine ⟨fun env headers base_url email rest acc resp hget h429 =>
      fetchEmails_429 env headers base_url email rest acc resp hget h429,
    fun env headers base_url pre email rest acc resp hpre hget h429 => ?_,
    fun env opts quals s0 email rest resp ht hq hget h429 => ?_,
    fun headers resp now hv reset hfind hparse => ?_, fun h1 h2 hk1 hk2 => ?_⟩
  · obtain ⟨acc2, hacc⟩ :=
      fetchEmails_prefix env headers base_url pre hpre (email :: rest) acc
    rw [hacc, fetchEmails_429 env headers base_url email rest acc2 resp hget h429]
  · unfold begin_scan
    rw [if_neg (by simp [ht]), hq]
    simp only [List.isEmpty_cons, Bool.false_eq_true, if_false]
    rw [fetchEmails_429 env s0.headers s0.base_url email rest [] resp hget h429]
  · constructor
    · unfold rateLimitError resetClause
      rw [hfind]
      simp only [hparse]
      have hw : (if reset > now then reset - now else 0) = reset - now := by
        split <;> omega
      rw [hw]
    · rw [max_def]
      split <;> omega
  · simp only [apiKeyGuidance, hk1, hk2, if_pos, if_neg]
    decide

/-- C4: a key answered with a status other than 200 and 429 contributes no
row and does not abort the loop; a following 200 key still contributes its
record. -/
theorem c4_per_key_skip :
    (∀ env headers base_url email rest acc resp,
        env.httpGet (profileRequest base_url headers email) = Except.ok resp →
        resp.status_code ≠ 200 → resp.status_code ≠ 429 →
          fetchEmails env headers base_url (email :: rest) acc
            = fetchEmails env headers base_url rest acc)
    ∧ (∀ env headers base_url e1 e2 acc r1 r2 p,
        env.httpGet (profileRequest base_url headers e1) = Except.ok r1 →
        r1.status_code ≠ 200 → r1.status_code ≠ 429 →
        env.httpGet (profileRequest base_url headers e2) = Except.ok r2 →
        r2.status_code = 200 → env.parseJson r2.body = Except.ok p →
          fetchEmails env headers base_url [e1, e2] acc
            = (acc ++ [insertEmailField p e2], none)) := by
  refine ⟨fun env headers base_url email rest acc resp hget h200 h429 =>
      fetchEmails_skip env headers base_url email rest acc resp hget h429 h200,
    fun env headers base_url e1 e2 acc r1 r2 p hget1 h200a h429a hget2 h200b hparse => ?_⟩
  rw [fetchEmails_skip env headers base_url e1 [e2] acc r1 hget1 h429a h200a,
    fetchEmails_200 env headers base_url e2 [] acc r2 p hget2 h200b hparse]
  rfl

/-- C5: a 200 whose body fails to parse is fatal for the whole scan: the loop
stops at that key with the parse error (independent of the remaining keys)
and `begin_scan` fails with that message. -/
theorem c5_malformed_body_fatal :
    (∀ env headers base_url email rest acc resp e,
        env.httpGet (profileRequest base_url headers email) = Except.ok resp →
        resp.status_code = 200 →
        env.parseJson resp.body = Except.error e →
          fetchEmails env headers base_url (email :: rest) acc
            = (acc, some ("Failed to parse JSON response: " ++ e)))
    ∧ (∀ env headers base_url pre email rest acc resp e,
        (∀ k ∈ pre, keyNonFatal env headers base_url k) →
        env.httpGet (profileRequest base_url headers email) = Except.ok resp →
        resp.status_code = 200 →
        env.parseJson resp.body = Except.error e →
          (fetchEmails env headers base_url (pre ++ email :: rest) acc).2
            = some ("Failed to parse JSON response: " ++ e))
    ∧ (∀ env opts quals s0 email rest resp e,
        requireOr opts "table" "profiles" = "profiles" →
        extractEmails quals = email :: rest →
        env.httpGet (profileRequest s0.base_url s0.headers email) = Except.ok resp →
        resp.status_code = 200 →
        env.parseJson resp.body = Except.error e →
          (begin_scan env opts quals s0).2
            = some ("Failed to parse JSON response: " ++ e)) := by
  refine ⟨fun env headers base_url email rest acc resp e hget h200 hparse =>
      fetchEmails_parse_fail env headers base_url email rest acc resp e hget h200 hparse,
    fun env headers base_url pre email rest acc resp e hpre hget h200 hparse => ?_,
    fun env opts quals s0 email rest resp e ht hq hget h200 hparse => ?_⟩
  · obtain ⟨acc2, hacc⟩ :=
      fetchEmails_prefix env headers base_url pre hpre (email :: rest) acc
    rw [hacc,
      fetchEmails_parse_fail env headers base_url email rest acc2 resp e hget h200 hparse]
  · unfold begin_scan
    rw [if_neg (by simp [ht]), hq]
    simp only [List.isEmpty_cons, Bool.false_eq_true, if_false]
    rw [fetchEmails_parse_fail env s0.headers s0.base_url email rest [] resp e hget h200
      hparse]

/-! ## Lemmas: the result buffer and the scan lifecycle -/

theorem iterState_eq (cols : List Column) (s : FdwState) :
    iterState cols s =
      if s.scan_index ≥ s.scanned_profiles.length then s
      else { s with scan_index := s.scan_index + 1 } := by
  unfold iterState iter_scan
  split <;> rfl

/-- Iterating from the start walks the cursor: after `i ≤ N` calls the state
is the original with cursor `i`. -/
theorem iterState_iterate (cols : List Column) (s : FdwState) (h0 : s.scan_index = 0) :
    ∀ i, i ≤ s.scanned_profiles.length →
      (iterState cols)^[i] s = { s with scan_index := i } := by
  intro i
  induction i with
  | zero =>
    intro _
    rw [Function.iterate_zero_apply]
    cases s
    simp_all
  | succ i ih =>
    intro hi
    rw [Function.iterate_succ_apply', ih (Nat.le_of_succ_le hi), iterState_eq]
    rw [if_neg (by simp; omega)]

/-- `iter_scan` only ever moves the cursor: every iterate of it keeps the
URL, the headers and the records. -/
theorem iterState_frame (cols : List Column) (s : FdwState) :
    ∀ k, ∃ j, (iterState cols)^[k] s = { s with scan_index := j } := by
  intro k
  induction k with
  | zero => exact ⟨s.scan_index, by cases s; rfl⟩
  | succ k ih =>
    obtain ⟨j, hj⟩ := ih
    rw [Function.iterate_succ_apply', hj, iterState_eq]
    split
    · exact ⟨j, rfl⟩
    · exact ⟨j + 1, rfl⟩

/-- C1: with N resolved records and the cursor at zero, the first N iterate
calls each produce a row (cursor i at call i), the call after them reports
end-of-scan; `re_scan` after any number of iterates restores exactly the
post-`begin_scan` state (no environment is consulted); `end_scan` followed by
`begin_scan` with no qualifying predicate yields the empty buffer; and
`iter_scan` preserves the cursor bound `scan_index ≤ length`. -/
theorem c1_cursor_lifecycle :
    (∀ cols s, s.scan_index = 0 → ∀ i < s.scanned_profiles.length,
        ((iter_scan cols ((iterState cols)^[i] s)).1).isSome = true
        ∧ ((iterState cols)^[i] s).scan_index = i)
    ∧ (∀ cols s, s.scan_index = 0 →
        (iter_scan cols ((iterState cols)^[s.scanned_profiles.length] s)).1 = none)
    ∧ (∀ cols s, s.scan_index = 0 → ∀ k, re_scan ((iterState cols)^[k] s) = s)
    ∧ (∀ env opts quals t,
        requireOr opts "table" "profiles" = "profiles" → extractEmails quals = [] →
          begin_scan env opts quals (end_scan t) = (end_scan t, none)
          ∧ (begin_scan env opts quals (end_scan t)).1.scanned_profiles = [])
    ∧ (∀ cols t, t.scan_index ≤ t.scanned_profiles.length →
        (iterState cols t).scan_index ≤ (iterState cols t).scanned_profiles.length) := by
  refine ⟨fun cols s h0 i hi => ?_, fun cols s h0 => ?_, fun cols s h0 k => ?_,
    fun env opts quals t ht hq => ?_, fun cols t ht => ?_⟩
  · rw [iterState_iterate cols s h0 i (Nat.le_of_lt hi)]
    constructor
    · unfold iter_scan
      rw [if_neg (by simp; omega)]
      rfl
    · rfl
  · rw [iterState_iterate cols s h0 _ (Nat.le_refl _)]
    unfold iter_scan
    rw [if_pos (by simp)]
  · obtain ⟨j, hj⟩ := iterState_frame cols s k
    rw [hj]
    unfold re_scan
    cases s
    simp_all
  · have hmain : begin_scan env opts quals (end_scan t) = (end_scan t, none) := by
      unfold begin_scan end_scan
      rw [if_neg (by simp [ht]), hq]
      rfl
    exact ⟨hmain, by rw [hmain]; rfl⟩
  · rw [iterState_eq]
    split
    · exact ht
    · simp
      omega

/-- C8: with zero qualifying predicates `begin_scan` consults no environment
(any two give the same result), succeeds with an empty buffer and cursor
zero, and the first iterate reports end-of-scan. -/
theorem c8_empty_filter_scan :
    (∀ env env2 opts quals s, extractEmails quals = [] →
        begin_scan env opts quals s = begin_scan env2 opts quals s)
    ∧ (∀ env opts quals s,
        requireOr opts "table" "profiles" = "profiles" → extractEmails quals = [] →
          begin_scan env opts quals s
            = ({ s with scanned_profiles := [], scan_index := 0 }, none)
          ∧ ∀ cols, (iter_scan cols (begin_scan env opts quals s).1).1 = none) := by
  constructor
  · intro env env2 opts quals s hq
    unfold begin_scan
    rw [hq]
    rfl
  · intro env opts quals s ht hq
    have hmain : begin_scan env opts quals s
        = ({ s with scanned_profiles := [], scan_index := 0 }, none) := by
      unfold begin_scan
      rw [if_neg (by simp [ht]), hq]
      rfl
    refine ⟨hmain, fun cols => ?_⟩
    rw [hmain]
    rfl

/-- C9: when the table option is not `profiles`, `begin_scan` has already
cleared the buffer and cursor before failing, so the error state holds no
prior rows and the next iterate reports end-of-scan. -/
theorem c9_begin_scan_error_clears (env : Env) (opts : List (String × String))
    (quals : List Qual) (s : FdwState) (cols : List Column)
    (ht : requireOr opts "table" "profiles" ≠ "profiles") :
    begin_scan env opts quals s
      = ({ s with scanned_profiles := [], scan_index := 0 },
         some ("Unsupported table '" ++ requireOr opts "table" "profiles" ++
           "'. Only 'profiles' is supported."))
    ∧ (iter_scan cols (begin_scan env opts quals s).1).1 = none := by
  have hmain : begin_scan env opts quals s
      = ({ s with scanned_profiles := [], scan_index := 0 },
         some ("Unsupported table '" ++ requireOr opts "table" "profiles" ++
           "'. Only 'profiles' is supported.")) := by
    unfold begin_scan
    rw [if_pos (by simp [ht])]
  refine ⟨hmain, ?_⟩
  rw [hmain]
  rfl

/-- C9 at a concrete input: a scan over a state holding two prior records,
began with table option `users`, fails but leaves the cleared state, and the
next iterate reports end-of-scan. -/
theorem c9_witness :
    begin_scan envOk [("table", "users")] [] statePrior
      = ({ statePrior with scanned_profiles := [], scan_index := 0 },
         some "Unsupported table 'users'. Only 'profiles' is supported.")
    ∧ (iter_scan [] (begin_scan envOk [("table", "users")] [] statePrior).1).1 = none :=
  c9_begin_scan_error_clears envOk [("table", "users")] [] statePrior []
    (by decide)

/-! ## Lemmas: row projection -/

/-- The 27-arm column match of `iter_scan` agrees with the spec's two-tier
table: named fields by declared shape first, then the type-directed
fallback. -/
theorem projectCell_eq_spec (p : JsonValue) (col : Column) :
    projectCell p col = projectSpec p col := by
  rcases col with ⟨name, oid⟩
  by_cases h1 : name = "hash"
  · subst h1; rfl
  by_cases h2 : name = "email"
  · subst h2; rfl
  by_cases h3 : name = "display_name"
  · subst h3; rfl
  by_cases h4 : name = "profile_url"
  · subst h4; rfl
  by_cases h5 : name = "avatar_url"
  · subst h5; rfl
  by_cases h6 : name = "avatar_alt_text"
  · subst h6; rfl
  by_cases h7 : name = "location"
  · subst h7; rfl
  by_cases h8 : name = "description"
  · subst h8; rfl
  by_cases h9 : name = "job_title"
  · subst h9; rfl
  by_cases h10 : name = "company"
  · subst h10; rfl
  by_cases h11 : name = "verified_accounts"
  · subst h11; rfl
  by_cases h12 : name = "pronunciation"
  · subst h12; rfl
  by_cases h13 : name = "pronouns"
  · subst h13; rfl
  by_cases h14 : name = "timezone"
  · subst h14; rfl
  by_cases h15 : name = "languages"
  · subst h15; rfl
  by_cases h16 : name = "first_name"
  · subst h16; rfl
  by_cases h17 : name = "last_name"
  · subst h17; rfl
  by_cases h18 : name = "is_organization"
  · subst h18; rfl
  by_cases h19 : name = "links"
  · subst h19; rfl
  by_cases h20 : name = "interests"
  · subst h20; rfl
  by_cases h21 : name = "payments"
  · subst h21; rfl
  by_cases h22 : name = "contact_info"
  · subst h22; rfl
  by_cases h23 : name = "number_verified_accounts"
  · subst h23; rfl
  by_cases h24 : name = "last_profile_edit"
  · subst h24; rfl
  by_cases h25 : name = "registration_date"
  · subst h25; rfl
  by_cases h26 : name = "json"
  · subst h26; rfl
  have hn : namedFieldShape name = none := by
    unfold namedFieldShape
    split <;> simp_all
  have hcell : projectCell p ⟨name, oid⟩ = fallbackByType p name oid := by
    unfold projectCell
    split <;> first
      | (cases oid <;> rfl)
      | simp_all
  rw [hcell]
  unfold projectSpec
  rw [hn]

/-- C3: projection resolves each requested column by the named-field table
first and the host-declared type second; a missing named field yields the
no-value marker, an unknown column of an unhandled declared type yields the
no-value marker, and `iter_scan` always produces one cell per requested
column with no error path. -/
theorem c3_projection_two_tier :
    (∀ p col, projectCell p col = projectSpec p col)
    ∧ (∀ p name oid sh, namedFieldShape name = some sh → sh ≠ FieldShape.docF →
        JsonValue.get p name = none → projectCell p ⟨name, oid⟩ = none)
    ∧ (∀ p name oid, namedFieldShape name = none →
        oid ≠ TypeOid.bool → oid ≠ TypeOid.string → oid ≠ TypeOid.i32 →
        oid ≠ TypeOid.i64 → oid ≠ TypeOid.json →
        projectCell p ⟨name, oid⟩ = none)
    ∧ (∀ cols s, s.scan_index < s.scanned_profiles.length →
        (iter_scan cols s).1
          = some (cols.map
              (projectCell (s.scanned_profiles.getD s.scan_index JsonValue.null)))) := by
  refine ⟨projectCell_eq_spec, fun p name oid sh hsh hdoc hget => ?_,
    fun p name oid hn h1 h2 h3 h4 h5 => ?_, fun cols s hlt => ?_⟩
  · rw [projectCell_eq_spec]
    unfold projectSpec
    rw [hsh]
    cases sh <;> simp_all [extractShape]
  · rw [projectCell_eq_spec]
    unfold projectSpec
    rw [hn]
    cases oid <;> first | rfl | simp_all
  · unfold iter_scan
    rw [if_neg (by omega)]

/-- The spec's projection-completeness example: a record with `hash` and
`display_name`, requested columns `hash`, `display_name`, `company`. -/
theorem projection_example :
    [Column.mk "hash" .string, Column.mk "display_name" .string,
        Column.mk "company" .string].map
      (projectCell (JsonValue.obj
        [("hash", JsonValue.str "h"), ("display_name", JsonValue.str "D")]))
      = [some (Cell.str "h"), some (Cell.str "D"), none] := rfl

/-! ## End-to-end scenario checks on concrete environments -/

/-- A scan over two keys against an all-200 environment buffers one record
per key, in order, with the email re-inserted into each parsed body. -/
theorem scan_scenario_ok :
    begin_scan envOk [] [qualEmail "a@x", qualEmail "b@x"] stateW
      = ({ stateW with scanned_profiles :=
            [JsonValue.obj [("hash", JsonValue.str "h"), ("email", JsonValue.str "a@x")],
             JsonValue.obj [("hash", JsonValue.str "h"), ("email", JsonValue.str "b@x")]] },
         none) := rfl

/-- A scan whose only key yields 404 succeeds with an empty buffer, and the
first iterate reports end-of-scan. -/
theorem scan_scenario_404 :
    begin_scan env404 [] [qualEmail "a@x"] stateW = (stateW, none)
    ∧ (iter_scan [] (begin_scan env404 [] [qualEmail "a@x"] stateW).1).1 = none :=
  ⟨rfl, rfl⟩

/-- A 404 key followed by a 200 key: the first contributes nothing, the
second still contributes its record. -/
theorem scan_scenario_404_then_200 :
    fetchEmails
      { httpGet := fun req =>
          if req.url = build_url "u" "a@x" then
            Except.ok { status_code := 404, headers := [], body := "" }
          else Except.ok { status_code := 200, headers := [], body := "" },
        parseJson := fun _ => Except.ok (JsonValue.obj [("hash", JsonValue.str "h")]),
        epochSecs := 100 }
      [] "u" ["a@x", "b@x"] []
      = ([JsonValue.obj [("hash", JsonValue.str "h"), ("email", JsonValue.str "b@x")]],
         none) := rfl

/-- A 429 with a future `x-ratelimit-reset` aborts the scan with the full
message: wait estimate 130 − 100 = 30 and the no-API-key guidance. -/
theorem scan_scenario_429 :
    (begin_scan env429 [] [qualEmail "a@x"] stateW).2
      = some ("Rate limit exceeded (429). Wait 30 seconds for reset. Consider getting an API key at https://gravatar.com/developers/applications for higher rate limits.") := rfl

/-- A 200 with an unparseable body aborts the scan with the parse error. -/
theorem scan_scenario_bad_body :
    (begin_scan envBadBody [] [qualEmail "a@x"] stateW).2
      = some "Failed to parse JSON response: expected value at line 1 column 1" := rfl

/-- One row per resolved record: projecting the `hash` column out of the
scenario scan's first record. -/
theorem scan_scenario_iterate :
    (iter_scan [Column.mk "hash" TypeOid.string]
        (begin_scan envOk [] [qualEmail "a@x"] stateW).1).1
      = some [some (Cell.str "h")] := rfl

end Gravatar
